import Mathlib

set_option autoImplicit false

/-!
Verification of the WebUSB MTP driver (`mtpDriver.js` and its Vue caller).

Shallow embedding conventions:
* JS byte buffers (`Uint8Array`) are `List Nat` whose entries are read through
  `byteAt`, which reduces mod 256 and returns 0 out of range (JS `undefined`
  coerces to 0 in the driver's arithmetic).
* JS 32-bit bitwise results are `Nat` bit patterns below 2^32; `toInt32`
  reinterprets such a pattern as the signed number JS actually produces.
* Little-endian reads built from `b0 | b1<<8 | b2<<16 | b3<<24` combine four
  disjoint byte lanes, so they are rendered as sums (`le32at`, `code16`).
* Async control flow is rendered as pure functions from the received packets
  (and the device state they update) to the resolved value and the new state,
  or as an explicit event trace where the claim is about the I/O sequence.
-/

/-! ### MTP constants (verbatim from the driver) -/

def MTP_PACKET_TYPE_COMMAND : Nat := 0x0001

def CONTAINER_TYPE_DATA : Nat := 0x0002

def MTP_OPEN_SESSION : Nat := 0x1002

def MTP_GET_STORAGE_IDS : Nat := 0x1004

def GET_OBJECT : Nat := 0x1009

def SEND_OBJECT_INFO : Nat := 0x100c

def MTP_OK : Nat := 0x2001

def MTP_PACKET_MAX_SIZE : Nat := 512

def MTP_CONTAINER_ARRAY_LEN : Nat := 12

/-! ### Byte-level helpers -/

/-- Byte `k` of a 32-bit value `x`, as the JS idiom `(x >> (k*8)) & 0xff`
    computes it for `0 ≤ k ≤ 3`: JS reduces `x` to its 32-bit pattern first
    (`ToInt32`), and an arithmetic shift of that pattern followed by `& 0xff`
    extracts exactly the k-th byte of `x mod 2^32`. -/
def byteOf (x k : Nat) : Nat := x % 4294967296 / 256 ^ k % 256

/-- Indexing a received `Uint8Array`: entries are bytes (reduce mod 256);
    out-of-range reads give `undefined`, which the driver's `|`/`<<` arithmetic
    coerces to 0. -/
def byteAt (buf : List Nat) (i : Nat) : Nat := buf.getD i 0 % 256

/-- The driver's operation/response-code read `(buf[7] << 8) | buf[6]`:
    two disjoint byte lanes, hence a sum. -/
def code16 (buf : List Nat) : Nat := byteAt buf 6 + 256 * byteAt buf 7

/-- The driver's 32-bit little-endian read
    `buf[i] | buf[i+1]<<8 | buf[i+2]<<16 | buf[i+3]<<24` as the unsigned 32-bit
    pattern (four disjoint byte lanes, hence a sum).  Where the driver uses the
    result as a JS number, `toInt32` is applied on top. -/
def le32at (buf : List Nat) (i : Nat) : Nat :=
  byteAt buf i + 256 * byteAt buf (i + 1) + 65536 * byteAt buf (i + 2) +
    16777216 * byteAt buf (i + 3)

/-- Reinterpret a 32-bit pattern as the signed number a JS bitwise result is. -/
def toInt32 (x : Nat) : Int :=
  if x % 4294967296 < 2147483648 then ((x % 4294967296 : Nat) : Int)
  else ((x % 4294967296 : Nat) : Int) - 4294967296

/-- A JS 32-bit left shift: the shift count is masked to 5 bits and the result
    truncated to 32 bits. -/
def jsShl32 (x s : Nat) : Nat := (x <<< (s % 32)) % 4294967296

/-- The 16-bit little-endian encoding of `x` — reference value for the claims. -/
def uint16LE (x : Nat) : List Nat := [x % 256, x / 256 % 256]

/-- The 32-bit little-endian encoding of `x` — reference value for the claims. -/
def uint32LE (x : Nat) : List Nat :=
  [x % 256, x / 256 % 256, x / 256 ^ 2 % 256, x / 256 ^ 3 % 256]

/-- The 64-bit little-endian integer at bytes `i..i+8` of a buffer — the value
    the spec says the StorageInfo reader records. -/
def le64at (buf : List Nat) (i : Nat) : Nat :=
  (List.range 8).foldl (fun acc k => acc + byteAt buf (i + k) * 256 ^ k) 0

/-! ### mtpPacket -/

/-- One byte of `parameters_array` as written by `mtpPacket.setParams`: the four
    little-endian bytes of each of the five parameters go at offsets 0, 4, 8,
    12, 16.  `parameters_array` is a `Uint8Array` of length `4*n`, so writes at
    indices ≥ `4*n` are silently dropped, and indices ≥ 20 are never written. -/
def paramByte (p1 p2 p3 p4 p5 i : Nat) : Nat :=
  if i < 4 then byteOf p1 i
  else if i < 8 then byteOf p2 (i - 4)
  else if i < 12 then byteOf p3 (i - 8)
  else if i < 16 then byteOf p4 (i - 12)
  else if i < 20 then byteOf p5 (i - 16)
  else 0

/-- Embedding of `mtpPacket.setParams` on a packet constructed with `n` parameters:
    the resulting `parameters_array` (length `4*n`). -/
def mtpPacket_setParams (n p1 p2 p3 p4 p5 : Nat) : List Nat :=
  (List.range (4 * n)).map (paramByte p1 p2 p3 p4 p5)

/-- Embedding of `mtpPacket.pack` on a packet constructed with `n` parameters: container
    length `12 + 4n` (4 bytes LE), container type (2 bytes LE), operation code
    (2 bytes LE), transaction id (4 bytes LE), then `parameters_array`. -/
def mtpPacket_pack (n ty op tx : Nat) (parameters_array : List Nat) : List Nat :=
  (List.range 4).map (fun i => byteOf (12 + 4 * n) i) ++
    [byteOf ty 0, byteOf ty 1] ++
    [byteOf op 0, byteOf op 1] ++
    (List.range 4).map (fun i => byteOf tx i) ++
    parameters_array

/-- A Command packet as built throughout the driver:
    `new mtpPacket(ps.length)`, `setTransactionType(1)`, `setOperation(op)`,
    `setTransactionID(tx)`, `setParams(p1, ..., 0 padding)`, `pack()`. -/
def mtpCommandPacket (op tx : Nat) (ps : List Nat) : List Nat :=
  mtpPacket_pack ps.length MTP_PACKET_TYPE_COMMAND op tx
    (mtpPacket_setParams ps.length (ps.getD 0 0) (ps.getD 1 0) (ps.getD 2 0)
      (ps.getD 3 0) (ps.getD 4 0))

/-- The OpenSession Command bytes: `openSession` uses the constructor state
    `transactionID = 0` and `sessionID = 1`, one parameter. -/
def openSessionPacket : List Nat := mtpCommandPacket MTP_OPEN_SESSION 0 [1]

/-! ### storageInfoDataset -/

structure storageInfoDataset where
  storageID : Int
  storageSize : Int
  usedSpace : Int
  freeSpace : Int
  storageDescLength : Int
  objectInfoObjects : List Int

/-- The `storageInfoDataset` constructor: record the id, zero the sizes, start
    with an empty object list. -/
def storageInfoDataset.mk0 (str_id : Int) : storageInfoDataset :=
  { storageID := str_id, storageSize := 0, usedSpace := 0, freeSpace := 0,
    storageDescLength := 0, objectInfoObjects := [] }

/-- The `storageSize` loop of `initDatasetFromMTPContainer`:
    `storageSize |= receivedBuf[i] << ((i - 10) * 8)` for `i = 18..25`.
    The JS shift counts are 64..120 and get masked to 5 bits, i.e. the shifts
    actually applied are 0,8,16,24,0,8,16,24: bytes 22..25 are or-ed over
    bytes 18..21 in a single 32-bit lane. -/
def storageSizeRaw (receivedBuf : List Nat) : Nat :=
  (List.range 8).foldl
    (fun acc k => acc ||| jsShl32 (byteAt receivedBuf (18 + k)) ((18 + k - 10) * 8)) 0

/-- The `freeSpace` loop: `freeSpace |= receivedBuf[i] << ((i - 18) * 8)` for
    `i = 26..33`; same masked-shift collapse as `storageSizeRaw`. -/
def freeSpaceRaw (receivedBuf : List Nat) : Nat :=
  (List.range 8).foldl
    (fun acc k => acc ||| jsShl32 (byteAt receivedBuf (26 + k)) ((26 + k - 18) * 8)) 0

/-- Embedding of `storageInfoDataset.initDatasetFromMTPContainer`: record the two size reads
    (signed 32-bit JS numbers), `usedSpace = storageSize - freeSpace`, and the
    32-bit description-length read at byte 38. -/
def storageInfoDataset.initDatasetFromMTPContainer (d : storageInfoDataset)
    (receivedBuf : List Nat) : storageInfoDataset :=
  let ss := toInt32 (storageSizeRaw receivedBuf)
  let fs := toInt32 (freeSpaceRaw receivedBuf)
  { d with storageSize := ss, freeSpace := fs, usedSpace := ss - fs,
           storageDescLength := toInt32 (le32at receivedBuf 38) }

/-! ### getStorageIDS -/

/-- The storage-id parsing loop of `getStorageIDS`: a 32-bit count at offset 12
    of the data packet, then one 32-bit storage id every 4 bytes from offset 16,
    each pushed as a fresh `storageInfoDataset` (empty object list).  A negative
    JS count runs the loop zero times (`Int.toNat`). -/
def parseStorageIDs (storageIDBuffer : List Nat) : List storageInfoDataset :=
  let numberOfStorageIDS := (toInt32 (le32at storageIDBuffer 12)).toNat
  (List.range numberOfStorageIDS).map
    (fun i => storageInfoDataset.mk0 (toInt32 (le32at storageIDBuffer (16 + 4 * i))))

/-- State effect of `getStorageIDS` once its two bulk-IN packets are available:
    demultiplex Data vs Response by operation code; only when the response code
    is `MTP_OK` clear and rebuild `storageInfoObjects`.  Otherwise the thrown
    error is caught, the promise resolves `false`, and the list is untouched. -/
def getStorageIDS_update (storageInfoObjects : List storageInfoDataset)
    (receivedPackets : List (List Nat)) : Bool × List storageInfoDataset :=
  let p0 := receivedPackets.getD 0 []
  let p1 := receivedPackets.getD 1 []
  let storageIDBuffer := if code16 p0 = MTP_GET_STORAGE_IDS then p0 else p1
  let MTP_OKBuffer := if code16 p0 = MTP_GET_STORAGE_IDS then p1 else p0
  if code16 MTP_OKBuffer = MTP_OK then (true, parseStorageIDs storageIDBuffer)
  else (false, storageInfoObjects)

/-! ### uploadFileInfo -/

/-- The `newObjectID` extraction loop of `uploadFileInfo`:
    `newObjectID |= (buf[i] >> ((i - 20) * 8)) & 0xff` for `i = 20..23`.
    Note the RIGHT shift applied to single bytes. -/
def newObjectIDFromBuffer (buf : List Nat) : Nat :=
  (List.range 4).foldl
    (fun acc k => acc ||| ((byteAt buf (20 + k) >>> (k * 8)) &&& 255)) 0

/-- Resolved value of `uploadFileInfo` once its two bulk-IN packets are
    available: demultiplex by operation code, check the response code, and on
    success return the extracted `newObjectID`. -/
def uploadFileInfo_update (receivedPackets : List (List Nat)) : Bool × Nat :=
  let p0 := receivedPackets.getD 0 []
  let p1 := receivedPackets.getD 1 []
  let objectInfoBuffer := if code16 p0 = SEND_OBJECT_INFO then p0 else p1
  let MTP_OKBuffer := if code16 p0 = SEND_OBJECT_INFO then p1 else p0
  if code16 MTP_OKBuffer = MTP_OK then (true, newObjectIDFromBuffer objectInfoBuffer)
  else (false, 0)

/-! ### uploadFile -/

/-- Wire length of each bulk OUT transfer performed by `uploadFile`'s while
    loop over a file of `L` bytes, starting at index `i`: the slice `[i, e)` of
    the file plus, on the first write only, the 12-byte Data container header.
    `fuel` bounds the iteration count (every iteration advances `i`, so `L + 1`
    suffices from `i = 0`). -/
def uploadLoopAux (L : Nat) : Nat → Nat → List Nat
  | 0, _ => []
  | fuel + 1, i =>
    if i < L then
      let e := if i + MTP_PACKET_MAX_SIZE > L then L
               else if i = 0 then i + 500 else i + MTP_PACKET_MAX_SIZE
      (if i = 0 then MTP_CONTAINER_ARRAY_LEN + (e - i) else e - i) ::
        uploadLoopAux L fuel e
    else []

/-- The sequence of bulk OUT wire lengths of `uploadFile`'s Data phase for a
    file of `fileBytesLength` bytes. -/
def uploadFileDataWrites (fileBytesLength : Nat) : List Nat :=
  uploadLoopAux fileBytesLength (fileBytesLength + 1) 0

/-! ### downloadAudioFile -/

/-- Observable I/O events of `downloadAudioFile` after the first packet:
    bulk-IN reads, chunk-store writes (blob number, byte count), and the
    promise resolution. -/
inductive AudioEvent
  | readIn : AudioEvent
  | addBlob : Nat → Nat → AudioEvent
  | resolved : Bool → AudioEvent
deriving DecidableEq

/-- Evaluation of `Math.ceil(x / 512)` on an exact integer `x`. -/
def ceilDiv512 (x : Int) : Int := Int.fdiv (x + 511) 512

/-- The for-loop of `downloadAudioFile` over the planned packet range: one
    bulk-IN read per iteration, appending `stream i` bytes to the buffer; every
    50,000th packet flushes the buffer to the chunk store and clears it.
    Arguments: iterations left, loop index, `blobCount`, buffer length.
    Returns the events plus the final `blobCount` and buffer length. -/
def audioLoop (stream : Nat → Nat) : Nat → Nat → Nat → Nat → List AudioEvent × Nat × Nat
  | 0, _, blobCount, bufLen => ([], blobCount, bufLen)
  | k + 1, i, blobCount, bufLen =>
    let bufLen2 := bufLen + stream i
    let blobCount2 := blobCount + 1
    if blobCount2 % 50000 = 0 then
      let r := audioLoop stream k (i + 1) blobCount2 0
      (AudioEvent.readIn :: AudioEvent.addBlob blobCount2 bufLen2 :: r.1, r.2)
    else
      let r := audioLoop stream k (i + 1) blobCount2 bufLen2
      (AudioEvent.readIn :: r.1, r.2)

/-- Event trace of `downloadAudioFile` from the first received packet on
    (`stream i` = bytes of the i-th in-loop read).  On the GetObject check the
    driver computes `fileLength = (32-bit LE at 0) - 12`, seeds the buffer with
    the first packet's payload (`length - 12` bytes), plans
    `Math.ceil((fileLength - buffered) / 512)` reads (a negative plan is a JS
    `RangeError`, caught and resolved `false`), runs the loop, saves the last
    blob, performs one final bulk-IN read, resolves `[true, ...]`, and saves the
    (now empty) buffer as one more blob. -/
def downloadAudioFileTrace (firstPacket : List Nat) (stream : Nat → Nat) : List AudioEvent :=
  if code16 firstPacket = GET_OBJECT then
    let fileLength : Int := toInt32 (le32at firstPacket 0) - (MTP_CONTAINER_ARRAY_LEN : Int)
    let firstPayloadLen : Nat := firstPacket.length - MTP_CONTAINER_ARRAY_LEN
    let n : Int := ceilDiv512 (fileLength - (firstPayloadLen : Int))
    if n < 0 then [AudioEvent.resolved false]
    else
      let r := audioLoop stream n.toNat 0 0 firstPayloadLen
      r.1 ++ [AudioEvent.addBlob r.2.1 r.2.2, AudioEvent.readIn,
              AudioEvent.resolved true, AudioEvent.addBlob (r.2.1 + 1) 0]
  else [AudioEvent.resolved false]

/-! ### deleteFile -/

/-- State effect of `deleteFile` once its response packet is available: resolve
    `true` iff the response code is `MTP_OK`; the device's storage and object
    lists are never touched by `deleteFile`. -/
def deleteFile_update (storageInfoObjects : List storageInfoDataset)
    (receivedPackets : List (List Nat)) : Bool × List storageInfoDataset :=
  if code16 (receivedPackets.getD 0 []) = MTP_OK then (true, storageInfoObjects)
  else (false, storageInfoObjects)

/-! ### stringToObj (config-file parser, WebHub component) -/

/-- Embedding of `string.split(/\r\n|\r|\n/g)`: the alternation prefers `\r\n`, so CRLF is
    one separator.  `acc` holds the current line reversed. -/
def splitLinesAux : List Char → List Char → List (List Char)
  | acc, [] => [acc.reverse]
  | acc, '\r' :: '\n' :: rest => acc.reverse :: splitLinesAux [] rest
  | acc, '\r' :: rest => acc.reverse :: splitLinesAux [] rest
  | acc, '\n' :: rest => acc.reverse :: splitLinesAux [] rest
  | acc, c :: rest => splitLinesAux (c :: acc) rest

/-- Embedding of `line.split("=")`: split at every `=`. -/
def splitEqAux : List Char → List Char → List (List Char)
  | acc, [] => [acc.reverse]
  | acc, c :: rest =>
    if c = '=' then acc.reverse :: splitEqAux [] rest
    else splitEqAux (c :: acc) rest

/-- JS object assignment `obj[k] = v` on a string-keyed object, as an
    insertion-ordered association list: overwrite in place if the key exists,
    otherwise append. -/
def objSet (obj : List (List Char × List Char)) (k v : List Char) :
    List (List Char × List Char) :=
  if obj.any (fun p => p.1 = k) then obj.map (fun p => if p.1 = k then (k, v) else p)
  else obj ++ [(k, v)]

/-- Embedding of `stringToObj`: split into lines, split each line at `=`, and keep
    `kvp[0] ↦ kvp[1]` exactly when `kvp[1]` is truthy (present and nonempty). -/
def stringToObj (s : List Char) : List (List Char × List Char) :=
  (splitLinesAux [] s).foldl
    (fun obj line =>
      let kvp := splitEqAux [] line
      if kvp.getD 1 [] ≠ [] then objSet obj (kvp.getD 0 []) (kvp.getD 1 []) else obj)
    []

/-- Spec-side reading of the amended C9: KEY is the text before the first `=`,
    VALUE the text between the first and the second `=`; a line with no `=` or
    with empty VALUE is dropped. -/
def lineEntry (line : List Char) : Option (List Char × List Char) :=
  let k := line.takeWhile (fun c => c != '=')
  let rest := line.dropWhile (fun c => c != '=')
  let v := (rest.drop 1).takeWhile (fun c => c != '=')
  if rest.isEmpty || v.isEmpty then none else some (k, v)

/-! ### Concrete packets and states used by witnesses and counterexamples -/

/-- A first GetObject Data packet: declared container length 20 (so a declared
    total of 8 payload bytes), 4 of which arrive in this packet. -/
def fpAudio : List Nat := [20, 0, 0, 0, 2, 0, 9, 16, 1, 0, 0, 0, 170, 187, 204, 221]

/-- Every in-loop bulk read returns 512 bytes. -/
def streamAudio : Nat → Nat := fun _ => 512

/-- A StorageInfo payload whose max-capacity field (bytes 18..26) is 2^32:
    byte 22 is 1, all other bytes 0. -/
def bufStorageInfo : List Nat := List.replicate 22 0 ++ [1] ++ List.replicate 11 0

/-- A SendObjectInfo-coded packet whose third response parameter slot
    (bytes 20..24) holds 258 = 0x102 little-endian. -/
def objInfoRespBuf : List Nat :=
  [24, 0, 0, 0, 2, 0, 12, 16, 1, 0, 0, 0, 1, 0, 1, 0, 0, 0, 0, 0, 2, 1, 0, 0]

/-- An MTP_OK Response packet. -/
def okRespBuf : List Nat := [12, 0, 0, 0, 3, 0, 1, 32, 1, 0, 0, 0]

/-- A GetStorageIDs Data packet carrying count 2 and ids 0x00010001,
    0x00010002. -/
def storageIDsDataBuf : List Nat :=
  [24, 0, 0, 0, 2, 0, 4, 16, 1, 0, 0, 0, 2, 0, 0, 0, 1, 0, 1, 0, 2, 0, 1, 0]

/-- A Response packet with the (non-OK) code 0x2019. -/
def badRespBuf : List Nat := [12, 0, 0, 0, 3, 0, 25, 32, 1, 0, 0, 0]

/-- A device storage list: one storage, id 0x00010001, whose object list holds
    the single handle 2. -/
def cexStorages : List storageInfoDataset :=
  [{ storageInfoDataset.mk0 65537 with objectInfoObjects := [2] }]

/-! ### Helper lemmas -/

theorem byteOf_eq_of_lt {x : Nat} (k : Nat) (hx : x < 4294967296) :
    byteOf x k = x / 256 ^ k % 256 := by
  unfold byteOf; rw [Nat.mod_eq_of_lt hx]

theorem uint32LE_eq_byteOf {x : Nat} (hx : x < 4294967296) :
    uint32LE x = [byteOf x 0, byteOf x 1, byteOf x 2, byteOf x 3] := by
  simp [uint32LE, byteOf_eq_of_lt _ hx]

theorem uint16LE_eq_byteOf {x : Nat} (hx : x < 65536) :
    uint16LE x = [byteOf x 0, byteOf x 1] := by
  have hx2 : x < 4294967296 := by omega
  simp [uint16LE, byteOf_eq_of_lt _ hx2]

/-- Claim C1: for every operation code, transaction id, and parameter list of at
    most five 32-bit parameters, the Command packet emitted by `mtpPacket`
    (`setParams` then `pack`) is the 32-bit LE total length `12 + 4n`, the
    16-bit LE container type 1, the 16-bit LE operation code, the 32-bit LE
    transaction id, then each parameter as 4 little-endian bytes in order, and
    it is exactly `12 + 4n` bytes long. -/
theorem mtpCommandPacket_layout (op tx : Nat) (ps : List Nat) (hn : ps.length ≤ 5)
    (hop : op < 65536) (htx : tx < 4294967296) (hps : ∀ p ∈ ps, p < 4294967296) :
    mtpCommandPacket op tx ps =
      uint32LE (12 + 4 * ps.length) ++ uint16LE 1 ++ uint16LE op ++ uint32LE tx ++
        ps.flatMap uint32LE ∧
    (mtpCommandPacket op tx ps).length = 12 + 4 * ps.length := by
  have hL : 12 + 4 * ps.length < 4294967296 := by omega
  constructor
  · rw [uint32LE_eq_byteOf hL, uint16LE_eq_byteOf (show (1 : Nat) < 65536 by norm_num),
      uint16LE_eq_byteOf hop, uint32LE_eq_byteOf htx]
    rcases ps with _ | ⟨a, _ | ⟨b, _ | ⟨c, _ | ⟨d, _ | ⟨e, _ | ⟨f, tl⟩⟩⟩⟩⟩⟩
    · simp [mtpCommandPacket, mtpPacket_pack, mtpPacket_setParams, MTP_PACKET_TYPE_COMMAND,
        List.range_succ]
    · have ha := hps a (by simp)
      simp [mtpCommandPacket, mtpPacket_pack, mtpPacket_setParams, MTP_PACKET_TYPE_COMMAND,
        List.range_succ, paramByte, uint32LE_eq_byteOf, ha]
    · have ha := hps a (by simp)
      have hb := hps b (by simp)
      simp [mtpCommandPacket, mtpPacket_pack, mtpPacket_setParams, MTP_PACKET_TYPE_COMMAND,
        List.range_succ, paramByte, uint32LE_eq_byteOf, ha, hb]
    · have ha := hps a (by simp)
      have hb := hps b (by simp)
      have hc := hps c (by simp)
      simp [mtpCommandPacket, mtpPacket_pack, mtpPacket_setParams, MTP_PACKET_TYPE_COMMAND,
        List.range_succ, paramByte, uint32LE_eq_byteOf, ha, hb, hc]
    · have ha := hps a (by simp)
      have hb := hps b (by simp)
      have hc := hps c (by simp)
      have hd := hps d (by simp)
      simp [mtpCommandPacket, mtpPacket_pack, mtpPacket_setParams, MTP_PACKET_TYPE_COMMAND,
        List.range_succ, paramByte, uint32LE_eq_byteOf, ha, hb, hc, hd]
    · have ha := hps a (by simp)
      have hb := hps b (by simp)
      have hc := hps c (by simp)
      have hd := hps d (by simp)
      have he := hps e (by simp)
      simp [mtpCommandPacket, mtpPacket_pack, mtpPacket_setParams, MTP_PACKET_TYPE_COMMAND,
        List.range_succ, paramByte, uint32LE_eq_byteOf, ha, hb, hc, hd, he]
    · simp at hn
  · simp [mtpCommandPacket, mtpPacket_pack, mtpPacket_setParams]
    omega

/-- Witness for C1 at the DeleteObject-shaped input: op 0x100B, tx 9,
    params [2, 0]. -/
theorem mtpCommandPacket_layout_witness :
    (([2, 0] : List Nat).length ≤ 5 ∧ 4107 < 65536 ∧ 9 < 4294967296 ∧
      (∀ p ∈ ([2, 0] : List Nat), p < 4294967296)) ∧
    (mtpCommandPacket 4107 9 [2, 0] =
      uint32LE (12 + 4 * ([2, 0] : List Nat).length) ++ uint16LE 1 ++ uint16LE 4107 ++
        uint32LE 9 ++ ([2, 0] : List Nat).flatMap uint32LE ∧
    (mtpCommandPacket 4107 9 [2, 0]).length = 12 + 4 * ([2, 0] : List Nat).length) :=
  ⟨⟨by decide, by decide, by decide, by decide⟩,
    mtpCommandPacket_layout 4107 9 [2, 0] (by decide) (by decide) (by decide) (by decide)⟩

/-- Claim C6 counterexample: the OpenSession Command written by `openSession` is
    not `0C 00 00 00 | 01 00 | 02 10 | 00 00 00 00 | 01 00 00 00`: the packet
    carries one 4-byte parameter, so its length field is 0x10, not 0x0C. -/
theorem openSessionPacket_ne_claimed :
    openSessionPacket ≠ [0x0C, 0, 0, 0, 0x01, 0, 0x02, 0x10, 0, 0, 0, 0, 0x01, 0, 0, 0] := by
  decide

/-- Claim C6 amended: when `openSession` issues its OpenSession Command
    (operation 0x1002, session id 1, transaction id 0), the byte sequence
    written to the OUT endpoint is exactly
    `10 00 00 00 | 01 00 | 02 10 | 00 00 00 00 | 01 00 00 00`. -/
theorem openSessionPacket_bytes :
    openSessionPacket = [0x10, 0, 0, 0, 0x01, 0, 0x02, 0x10, 0, 0, 0, 0, 0x01, 0, 0, 0] := by
  decide

theorem byteAt_lt (buf : List Nat) (i : Nat) : byteAt buf i < 256 :=
  Nat.mod_lt _ (by norm_num)

/-- Claim C4 (code bug): `uploadFileInfo` extracts the new object handle with a
    RIGHT shift — `newObjectID |= (buf[i] >> ((i-20)*8)) & 0xff` — so the
    extracted value is always just byte 20 of the buffer; on an exchange whose
    handle parameter (bytes 20..24) is 258 = 0x0102 little-endian it resolves
    `(true, 2)` instead of 258. -/
theorem uploadFileInfo_handle_bug :
    (∀ buf : List Nat, newObjectIDFromBuffer buf = byteAt buf 20) ∧
    uploadFileInfo_update [objInfoRespBuf, okRespBuf] = (true, 2) ∧
    le32at objInfoRespBuf 20 = 258 := by
  refine ⟨fun buf => ?_, by decide, by decide⟩
  show (List.range 4).foldl
      (fun acc k => acc ||| ((byteAt buf (20 + k) >>> (k * 8)) &&& 255)) 0 =
    byteAt buf 20
  rw [show List.range 4 = [0, 1, 2, 3] from rfl]
  simp only [List.foldl_cons, List.foldl_nil]
  have hb20 : byteAt buf 20 &&& 255 = byteAt buf 20 :=
    @Nat.and_pow_two_sub_one_of_lt_two_pow 8 (byteAt buf 20) (byteAt_lt buf 20)
  have hsh : ∀ j s, 8 ≤ s → byteAt buf j >>> s = 0 := by
    intro j s hs
    rw [Nat.shiftRight_eq_div_pow]
    have h28 : (2 : Nat) ^ 8 ≤ 2 ^ s := Nat.pow_le_pow_right (by norm_num) hs
    exact Nat.div_eq_of_lt (lt_of_lt_of_le (byteAt_lt buf j) h28)
  have h21 : byteAt buf 21 >>> 8 = 0 := hsh 21 8 (le_refl 8)
  have h22 : byteAt buf 22 >>> 16 = 0 := hsh 22 16 (by norm_num)
  have h23 : byteAt buf 23 >>> 24 = 0 := hsh 23 24 (by norm_num)
  simp [hb20, h21, h22, h23, Nat.zero_and, Nat.or_zero, Nat.zero_or, Nat.shiftRight_zero]

/-- Claim C3 (code bug): `initDatasetFromMTPContainer` does not record the
    64-bit little-endian integer at bytes 18..26.  At a StorageInfo payload
    whose max-capacity field is 2^32 (byte 22 = 1, all other bytes 0) the
    recorded `storageSize` is 1, because the JS shift counts `(i-10)*8` =
    64..120 are masked to 5 bits, collapsing the high four bytes onto the low
    four in one 32-bit lane. -/
theorem initDataset_storageSize_bug :
    ((storageInfoDataset.mk0 65537).initDatasetFromMTPContainer bufStorageInfo).storageSize
      = 1 ∧
    le64at bufStorageInfo 18 = 4294967296 ∧ (1 : Int) ≠ ((4294967296 : Nat) : Int) := by
  refine ⟨by decide, by decide, by decide⟩

/-- Claim C5 (code bug): for a 1012-byte file the Data phase totals
    12 + 1012 = 1024 bytes, an exact multiple of 512, yet `uploadFile` performs
    exactly two 512-byte bulk OUT writes (500 + header, then 512) and never a
    zero-length terminating write. -/
theorem uploadFile_no_zero_length_write :
    (MTP_CONTAINER_ARRAY_LEN + 1012) % MTP_PACKET_MAX_SIZE = 0 ∧
    uploadFileDataWrites 1012 = [512, 512] ∧
    ¬ 0 ∈ uploadFileDataWrites 1012 := by
  refine ⟨by decide, by decide, by decide⟩

/-- Claim C8 counterexample: with storage 0x00010001 holding object handle 2
    and an MTP_OK response, `deleteFile` resolves `true` but handle 2 is still
    present in the storage's local object list. -/
theorem deleteFile_object_still_listed :
    (deleteFile_update cexStorages [okRespBuf]).1 = true ∧
    2 ∈ ((deleteFile_update cexStorages [okRespBuf]).2.getD 0
          (storageInfoDataset.mk0 0)).objectInfoObjects := by
  refine ⟨by decide, by decide⟩

/-- Claim C8 amended: `deleteFile` resolves `true` exactly when the response
    code is MTP_OK, and in every case leaves the device's local storage and
    object lists unchanged; a deleted object disappears from the local list only
    on a later re-enumeration. -/
theorem deleteFile_resolves_and_preserves (st : List storageInfoDataset)
    (ps : List (List Nat)) :
    ((deleteFile_update st ps).1 = true ↔ code16 (ps.getD 0 []) = MTP_OK) ∧
    (deleteFile_update st ps).2 = st := by
  unfold deleteFile_update
  simp only [List.getD_eq_getElem?_getD]
  split <;> rename_i h <;> simp [h]

/-- Claim C7: on a successful GetStorageIDs exchange — a Data packet `d` coded
    0x1004 whose payload carries a 32-bit count and that many 32-bit ids, plus
    an MTP_OK Response `r`, received in either order — `getStorageIDS` replaces
    the device's storage list with exactly `count` entries, one per id in
    payload order, and every new storage record has an empty object list. -/
theorem getStorageIDS_success (old : List storageInfoDataset) (d r : List Nat)
    (ps : List (List Nat)) (hps : ps = [d, r] ∨ ps = [r, d])
    (hd : code16 d = MTP_GET_STORAGE_IDS) (hr : code16 r = MTP_OK) :
    (getStorageIDS_update old ps).1 = true ∧
    (getStorageIDS_update old ps).2.length = (toInt32 (le32at d 12)).toNat ∧
    (getStorageIDS_update old ps).2.map (fun s => s.storageID) =
      (List.range (toInt32 (le32at d 12)).toNat).map
        (fun i => toInt32 (le32at d (16 + 4 * i))) ∧
    (getStorageIDS_update old ps).2.all (fun s => s.objectInfoObjects.isEmpty) = true := by
  have hne : MTP_OK ≠ MTP_GET_STORAGE_IDS := by decide
  have hbase :
      (getStorageIDS_update old ps).1 = true ∧
      (getStorageIDS_update old ps).2 = parseStorageIDs d := by
    rcases hps with h | h <;> subst h <;>
      simp [getStorageIDS_update, hd, hr, hne]
  refine ⟨hbase.1, ?_, ?_, ?_⟩
  · rw [hbase.2]; simp [parseStorageIDs]
  · rw [hbase.2]; simp [parseStorageIDs, storageInfoDataset.mk0]
  · rw [hbase.2]; simp [parseStorageIDs, storageInfoDataset.mk0, List.all_eq_true]

/-- Witness for C7: the two-storage exchange (count 2, ids 0x00010001 and
    0x00010002) with the MTP_OK response second. -/
theorem getStorageIDS_success_witness :
    (([storageIDsDataBuf, okRespBuf] : List (List Nat)) = [storageIDsDataBuf, okRespBuf] ∨
      ([storageIDsDataBuf, okRespBuf] : List (List Nat)) = [okRespBuf, storageIDsDataBuf]) ∧
    code16 storageIDsDataBuf = MTP_GET_STORAGE_IDS ∧ code16 okRespBuf = MTP_OK ∧
    ((getStorageIDS_update [] [storageIDsDataBuf, okRespBuf]).1 = true ∧
     (getStorageIDS_update [] [storageIDsDataBuf, okRespBuf]).2.length =
       (toInt32 (le32at storageIDsDataBuf 12)).toNat ∧
     (getStorageIDS_update [] [storageIDsDataBuf, okRespBuf]).2.map (fun s => s.storageID) =
       (List.range (toInt32 (le32at storageIDsDataBuf 12)).toNat).map
         (fun i => toInt32 (le32at storageIDsDataBuf (16 + 4 * i))) ∧
     (getStorageIDS_update [] [storageIDsDataBuf, okRespBuf]).2.all
       (fun s => s.objectInfoObjects.isEmpty) = true) :=
  ⟨Or.inl rfl, by decide, by decide,
    getStorageIDS_success [] storageIDsDataBuf okRespBuf [storageIDsDataBuf, okRespBuf]
      (Or.inl rfl) (by decide) (by decide)⟩

/-- Claim C10: if the packet `getStorageIDS` demultiplexes as the Response does
    not carry code MTP_OK, the call resolves `false` and `storageInfoObjects`
    is left exactly as before the call: the list is cleared and rebuilt only
    after the OK check passes.  (A transfer or parse exception takes the same
    catch path — `resolve(false)` — before any mutation of the list.) -/
theorem getStorageIDS_failure (old : List storageInfoDataset) (p0 p1 : List Nat)
    (h : code16 (if code16 p0 = MTP_GET_STORAGE_IDS then p1 else p0) ≠ MTP_OK) :
    getStorageIDS_update old [p0, p1] = (false, old) := by
  simp only [getStorageIDS_update, List.getD_eq_getElem?_getD, List.getElem?_cons_zero,
    List.getElem?_cons_succ, Option.getD_some]
  rw [if_neg h]

/-- Witness for C10: a GetStorageIDs Data packet paired with an error response
    (code 0x2019) leaves a one-storage list untouched and resolves false. -/
theorem getStorageIDS_failure_witness :
    code16 (if code16 storageIDsDataBuf = MTP_GET_STORAGE_IDS then badRespBuf
      else storageIDsDataBuf) ≠ MTP_OK ∧
    getStorageIDS_update [storageInfoDataset.mk0 7] [storageIDsDataBuf, badRespBuf] =
      (false, [storageInfoDataset.mk0 7]) :=
  ⟨by decide,
    getStorageIDS_failure [storageInfoDataset.mk0 7] storageIDsDataBuf badRespBuf (by decide)⟩

theorem audioLoop_count (stream : Nat → Nat) :
    ∀ k i blobCount bufLen : Nat,
      ((audioLoop stream k i blobCount bufLen).1).count AudioEvent.readIn = k := by
  intro k
  induction k with
  | zero => intro i bc bl; rfl
  | succ k ih =>
    intro i bc bl
    by_cases h : (bc + 1) % 50000 = 0 <;>
      simp [audioLoop, h, ih, List.count_cons]

theorem take_length_add {α : Type} (xs ys : List α) (k : Nat) :
    (xs ++ ys).take (xs.length + k) = xs ++ ys.take k := by
  rw [List.take_append_eq_append_take]
  have h1 : xs.take (xs.length + k) = xs := List.take_of_length_le (by omega)
  have h2 : xs.length + k - xs.length = k := by omega
  rw [h1, h2]

theorem getD_append_add {α : Type} (xs ys : List α) (d : α) (k : Nat) :
    (xs ++ ys).getD (xs.length + k) d = ys.getD k d := by
  rw [List.getD_eq_getElem?_getD, List.getD_eq_getElem?_getD,
    List.getElem?_append_right (Nat.le_add_right _ _), Nat.add_sub_cancel_left]

theorem audio_suffix_shape (xs : List AudioEvent) (b s b2 N : Nat)
    (hc : xs.count AudioEvent.readIn = N) :
    ((xs ++ [AudioEvent.addBlob b s, AudioEvent.readIn, AudioEvent.resolved true,
        AudioEvent.addBlob b2 0]).count AudioEvent.readIn = N + 1) ∧
    (((xs ++ [AudioEvent.addBlob b s, AudioEvent.readIn, AudioEvent.resolved true,
        AudioEvent.addBlob b2 0]).take
      ((xs ++ [AudioEvent.addBlob b s, AudioEvent.readIn, AudioEvent.resolved true,
        AudioEvent.addBlob b2 0]).length - 3)).count AudioEvent.readIn = N) ∧
    ((xs ++ [AudioEvent.addBlob b s, AudioEvent.readIn, AudioEvent.resolved true,
        AudioEvent.addBlob b2 0]).getD
      ((xs ++ [AudioEvent.addBlob b s, AudioEvent.readIn, AudioEvent.resolved true,
        AudioEvent.addBlob b2 0]).length - 3) (AudioEvent.resolved false) =
      AudioEvent.readIn) ∧
    ((xs ++ [AudioEvent.addBlob b s, AudioEvent.readIn, AudioEvent.resolved true,
        AudioEvent.addBlob b2 0]).getD
      ((xs ++ [AudioEvent.addBlob b s, AudioEvent.readIn, AudioEvent.resolved true,
        AudioEvent.addBlob b2 0]).length - 2) (AudioEvent.resolved false) =
      AudioEvent.resolved true) := by
  have hlen : (xs ++ [AudioEvent.addBlob b s, AudioEvent.readIn, AudioEvent.resolved true,
      AudioEvent.addBlob b2 0]).length = xs.length + 4 := by simp
  have h3 : xs.length + 4 - 3 = xs.length + 1 := by omega
  have h2 : xs.length + 4 - 2 = xs.length + 2 := by omega
  refine ⟨?_, ?_, ?_, ?_⟩
  · rw [List.count_append, hc]
    simp [List.count_cons]
  · rw [hlen, h3, take_length_add, List.count_append, hc]
    simp [List.count_cons]
  · rw [hlen, h3, getD_append_add]
    rfl
  · rw [hlen, h2, getD_append_add]
    rfl

/-- Claim C2: for every large-object download whose first Data packet passes
    the GetObject check, declares a 12-byte header (`12 ≤ |fp|`) and a total at
    least covering the already-received payload (`|fp| ≤` declared length), the
    engine performs exactly `⌈(declared_total − first_payload_len) / 512⌉`
    further bulk-IN reads in its loop, followed by exactly one additional
    bulk-IN read that consumes the trailing packet, before the promise
    resolves: the trace `t` counts that many reads before its final
    read/resolve suffix, the event before the resolution is the one additional
    read, and the total number of reads is the ceiling plus one. -/
theorem downloadAudioFile_reads (fp : List Nat) (stream : Nat → Nat)
    (hop : code16 fp = GET_OBJECT) (hlen : 12 ≤ fp.length)
    (hsz : (fp.length : Int) ≤ toInt32 (le32at fp 0)) :
    (((downloadAudioFileTrace fp stream).count AudioEvent.readIn : Int) =
      ceilDiv512 ((toInt32 (le32at fp 0) - 12) - ((fp.length : Int) - 12)) + 1) ∧
    ((((downloadAudioFileTrace fp stream).take
        ((downloadAudioFileTrace fp stream).length - 3)).count AudioEvent.readIn : Int) =
      ceilDiv512 ((toInt32 (le32at fp 0) - 12) - ((fp.length : Int) - 12))) ∧
    ((downloadAudioFileTrace fp stream).getD ((downloadAudioFileTrace fp stream).length - 3)
      (AudioEvent.resolved false) = AudioEvent.readIn) ∧
    ((downloadAudioFileTrace fp stream).getD ((downloadAudioFileTrace fp stream).length - 2)
      (AudioEvent.resolved false) = AudioEvent.resolved true) := by
  have hfl : ((fp.length - MTP_CONTAINER_ARRAY_LEN : Nat) : Int) = (fp.length : Int) - 12 := by
    simp only [MTP_CONTAINER_ARRAY_LEN]
    omega
  have harg : (toInt32 (le32at fp 0) - 12) - ((fp.length : Int) - 12) =
      toInt32 (le32at fp 0) - (MTP_CONTAINER_ARRAY_LEN : Int) -
        ((fp.length - MTP_CONTAINER_ARRAY_LEN : Nat) : Int) := by
    rw [hfl]
    simp only [MTP_CONTAINER_ARRAY_LEN]
    push_cast
    ring
  have hn0 : 0 ≤ ceilDiv512 (toInt32 (le32at fp 0) - (MTP_CONTAINER_ARRAY_LEN : Int) -
      ((fp.length - MTP_CONTAINER_ARRAY_LEN : Nat) : Int)) := by
    simp only [ceilDiv512]
    apply Int.fdiv_nonneg _ (by norm_num)
    rw [hfl]
    omega
  have htr : downloadAudioFileTrace fp stream =
      (audioLoop stream
        (ceilDiv512 (toInt32 (le32at fp 0) - (MTP_CONTAINER_ARRAY_LEN : Int) -
          ((fp.length - MTP_CONTAINER_ARRAY_LEN : Nat) : Int))).toNat
        0 0 (fp.length - MTP_CONTAINER_ARRAY_LEN)).1 ++
      [AudioEvent.addBlob
          (audioLoop stream
            (ceilDiv512 (toInt32 (le32at fp 0) - (MTP_CONTAINER_ARRAY_LEN : Int) -
              ((fp.length - MTP_CONTAINER_ARRAY_LEN : Nat) : Int))).toNat
            0 0 (fp.length - MTP_CONTAINER_ARRAY_LEN)).2.1
          (audioLoop stream
            (ceilDiv512 (toInt32 (le32at fp 0) - (MTP_CONTAINER_ARRAY_LEN : Int) -
              ((fp.length - MTP_CONTAINER_ARRAY_LEN : Nat) : Int))).toNat
            0 0 (fp.length - MTP_CONTAINER_ARRAY_LEN)).2.2,
        AudioEvent.readIn, AudioEvent.resolved true,
        AudioEvent.addBlob
          ((audioLoop stream
            (ceilDiv512 (toInt32 (le32at fp 0) - (MTP_CONTAINER_ARRAY_LEN : Int) -
              ((fp.length - MTP_CONTAINER_ARRAY_LEN : Nat) : Int))).toNat
            0 0 (fp.length - MTP_CONTAINER_ARRAY_LEN)).2.1 + 1) 0] := by
    unfold downloadAudioFileTrace
    rw [if_pos hop, if_neg (not_lt.mpr hn0)]
  have hcount := audioLoop_count stream
    (ceilDiv512 (toInt32 (le32at fp 0) - (MTP_CONTAINER_ARRAY_LEN : Int) -
      ((fp.length - MTP_CONTAINER_ARRAY_LEN : Nat) : Int))).toNat
    0 0 (fp.length - MTP_CONTAINER_ARRAY_LEN)
  have hshape := audio_suffix_shape
    (audioLoop stream
      (ceilDiv512 (toInt32 (le32at fp 0) - (MTP_CONTAINER_ARRAY_LEN : Int) -
        ((fp.length - MTP_CONTAINER_ARRAY_LEN : Nat) : Int))).toNat
      0 0 (fp.length - MTP_CONTAINER_ARRAY_LEN)).1
    (audioLoop stream
      (ceilDiv512 (toInt32 (le32at fp 0) - (MTP_CONTAINER_ARRAY_LEN : Int) -
        ((fp.length - MTP_CONTAINER_ARRAY_LEN : Nat) : Int))).toNat
      0 0 (fp.length - MTP_CONTAINER_ARRAY_LEN)).2.1
    (audioLoop stream
      (ceilDiv512 (toInt32 (le32at fp 0) - (MTP_CONTAINER_ARRAY_LEN : Int) -
        ((fp.length - MTP_CONTAINER_ARRAY_LEN : Nat) : Int))).toNat
      0 0 (fp.length - MTP_CONTAINER_ARRAY_LEN)).2.2
    ((audioLoop stream
      (ceilDiv512 (toInt32 (le32at fp 0) - (MTP_CONTAINER_ARRAY_LEN : Int) -
        ((fp.length - MTP_CONTAINER_ARRAY_LEN : Nat) : Int))).toNat
      0 0 (fp.length - MTP_CONTAINER_ARRAY_LEN)).2.1 + 1)
    ((ceilDiv512 (toInt32 (le32at fp 0) - (MTP_CONTAINER_ARRAY_LEN : Int) -
      ((fp.length - MTP_CONTAINER_ARRAY_LEN : Nat) : Int))).toNat)
    hcount
  rw [htr, harg]
  refine ⟨?_, ?_, hshape.2.2.1, hshape.2.2.2⟩
  · rw [hshape.1]
    push_cast
    rw [Int.toNat_of_nonneg hn0]
  · rw [hshape.2.1]
    rw [Int.toNat_of_nonneg hn0]

/-- Witness for C2: the concrete first packet `fpAudio` (declared total 8
    payload bytes, 4 already received, so one planned loop read) with 512-byte
    loop reads: two reads in total, the extra read just before the resolution. -/
theorem downloadAudioFile_reads_witness :
    (code16 fpAudio = GET_OBJECT ∧ 12 ≤ fpAudio.length ∧
      (fpAudio.length : Int) ≤ toInt32 (le32at fpAudio 0)) ∧
    ((((downloadAudioFileTrace fpAudio streamAudio).count AudioEvent.readIn : Int) =
      ceilDiv512 ((toInt32 (le32at fpAudio 0) - 12) - ((fpAudio.length : Int) - 12)) + 1) ∧
    ((((downloadAudioFileTrace fpAudio streamAudio).take
        ((downloadAudioFileTrace fpAudio streamAudio).length - 3)).count AudioEvent.readIn : Int) =
      ceilDiv512 ((toInt32 (le32at fpAudio 0) - 12) - ((fpAudio.length : Int) - 12))) ∧
    ((downloadAudioFileTrace fpAudio streamAudio).getD
      ((downloadAudioFileTrace fpAudio streamAudio).length - 3)
      (AudioEvent.resolved false) = AudioEvent.readIn) ∧
    ((downloadAudioFileTrace fpAudio streamAudio).getD
      ((downloadAudioFileTrace fpAudio streamAudio).length - 2)
      (AudioEvent.resolved false) = AudioEvent.resolved true)) :=
  ⟨⟨by decide, by decide, by decide⟩,
    downloadAudioFile_reads fpAudio streamAudio (by decide) (by decide) (by decide)⟩

/-- Claim C9 counterexample: on the single line `A=B=C` the parser stores the
    entry `A ↦ B`, and `A=B` reassembled from that entry is not the input line:
    the stored value is not the right-hand side `B=C` of the line's KEY=VALUE
    split, so the claim fails as stated. -/
theorem stringToObj_counterexample :
    stringToObj ['A', '=', 'B', '=', 'C'] = [(['A'], ['B'])] ∧
    ['A'] ++ '=' :: ['B'] ≠ ['A', '=', 'B', '=', 'C'] := by
  refine ⟨by decide, by decide⟩

theorem splitEqAux_getD_zero :
    ∀ (l acc : List Char), (splitEqAux acc l).getD 0 [] =
      acc.reverse ++ l.takeWhile (fun c => c != '=') := by
  intro l
  induction l with
  | nil => intro acc; simp [splitEqAux]
  | cons c rest ih =>
    intro acc
    by_cases h : c = '='
    · subst h
      rw [splitEqAux, if_pos rfl]
      simp [List.takeWhile_cons]
    · rw [splitEqAux, if_neg h, ih (c :: acc)]
      simp [List.takeWhile_cons, h]

theorem splitEqAux_getD_one :
    ∀ (l acc : List Char), (splitEqAux acc l).getD 1 [] =
      ((l.dropWhile (fun c => c != '=')).drop 1).takeWhile (fun c => c != '=') := by
  intro l
  induction l with
  | nil => intro acc; simp [splitEqAux]
  | cons c rest ih =>
    intro acc
    by_cases h : c = '='
    · subst h
      rw [splitEqAux, if_pos rfl]
      rw [show (acc.reverse :: splitEqAux [] rest).getD 1 [] =
        (splitEqAux [] rest).getD 0 [] from rfl]
      rw [splitEqAux_getD_zero rest []]
      simp [List.dropWhile_cons]
    · rw [splitEqAux, if_neg h, ih (c :: acc)]
      simp [List.dropWhile_cons, h]

theorem foldl_congr_fun {α β : Type} (f g : β → α → β) (hfg : ∀ b a, f b a = g b a) :
    ∀ (l : List α) (b : β), l.foldl f b = l.foldl g b := by
  intro l
  induction l with
  | nil => intro b; rfl
  | cons a tl ih => intro b; simp only [List.foldl_cons, hfg, ih]

/-- Claim C9 amended: for every configuration-file text, the parser splits on
    CRLF, CR, or LF, splits each line at every `=`, and keeps exactly the lines
    whose second `=`-separated field is nonempty, mapping the text before the
    first `=` to the text between the first and second `=` (so a VALUE holding
    an `=` is truncated at it); later lines overwrite earlier entries with the
    same key. -/
theorem stringToObj_amended (s : List Char) :
    stringToObj s = (splitLinesAux [] s).foldl
      (fun obj line =>
        match lineEntry line with
        | some kv => objSet obj kv.1 kv.2
        | none => obj) [] := by
  unfold stringToObj
  apply foldl_congr_fun
  intro obj line
  unfold lineEntry
  show (if (splitEqAux [] line).getD 1 [] ≠ [] then
      objSet obj ((splitEqAux [] line).getD 0 []) ((splitEqAux [] line).getD 1 []) else obj) = _
  rw [splitEqAux_getD_one, splitEqAux_getD_zero]
  rcases hrest : line.dropWhile (fun c => c != '=') with _ | ⟨c, rest2⟩
  · simp [hrest]
  · by_cases hv : rest2.takeWhile (fun c => c != '=') = [] <;>
      simp [hrest, hv]
